import Mathlib

/-!
Shallow embedding of `pkg/asset/agent/manifests/infraenv.go` from the
openshift-installer repository: the `InfraEnv` asset with its `Generate`,
`Load`, `Files` and `finish` methods, together with models of the external
collaborators the file uses (the architecture translation table
`arch.RpmArch`, the strict YAML (de)serializer, the helper lookups over the
install configuration, and the file fetcher).

Machine strings are Lean `String`s; Go `nil` pointers are `Option.none`;
a Go function that can panic is modelled with `GoResult`, whose `panics`
constructor records a nil-pointer dereference (no value is returned).
-/

namespace InfraEnvAsset

/-- Modelled from the spec: the network proxy descriptor carried by the
install configuration and copied into the generated manifest. -/
structure Proxy where
  httpProxy : String
  httpsProxy : String
  noProxy : String
deriving DecidableEq, Repr

/-- Control-plane machine pool section of the install configuration; the
source reads only its `Architecture` field (`installConfig.Config.ControlPlane.Architecture`). -/
structure MachinePool where
  architecture : String
deriving DecidableEq, Repr

/-- Modelled from the spec: the view of the install configuration this asset
reads — SSH key material, the (nullable) control-plane section, the optional
proxy descriptor, and the data behind the pure helper lookups
(`getInfraEnvName`, `getObjectMetaNamespace`, `getClusterDeploymentName`,
`getPullSecretName`, `getNMStateConfigLabels`), which the spec leaves
unspecified beyond being pure accessors. In the Go source `ControlPlane` is a
pointer, so it is nullable here. -/
structure InstallConfig where
  sshKey : String
  controlPlane : Option MachinePool
  proxy : Option Proxy
  infraEnvName : String
  namespaceName : String
  clusterDeploymentName : String
  pullSecretName : String
  nmStateLabels : List (String × String)
deriving DecidableEq, Repr

/-- `agent.OptionalInstallConfig`: holds a nullable install configuration. -/
structure OptionalInstallConfig where
  config : Option InstallConfig
deriving DecidableEq, Repr

/-- Modelled from the spec: the agent-configuration data this asset reads
(`agentConfig.Config.AdditionalNTPSources`). -/
structure AgentConfigData where
  additionalNTPSources : List String
deriving DecidableEq, Repr

/-- `agentconfig.AgentConfig`: holds a nullable agent configuration. -/
structure AgentConfig where
  config : Option AgentConfigData
deriving DecidableEq, Repr

/-- Modelled from the spec: pure helper lookup for the infra-env name. -/
def getInfraEnvName (cfg : InstallConfig) : String := cfg.infraEnvName

/-- Modelled from the spec: pure helper lookup for the object namespace. -/
def getObjectMetaNamespace (cfg : InstallConfig) : String := cfg.namespaceName

/-- Modelled from the spec: pure helper lookup for the cluster-deployment name. -/
def getClusterDeploymentName (cfg : InstallConfig) : String := cfg.clusterDeploymentName

/-- Modelled from the spec: pure helper lookup for the pull-secret name. -/
def getPullSecretName (cfg : InstallConfig) : String := cfg.pullSecretName

/-- Modelled from the spec: pure helper lookup for the NMState config label selector. -/
def getNMStateConfigLabels (cfg : InstallConfig) : List (String × String) := cfg.nmStateLabels

/-- Modelled from the spec: `getProxy` copies the install configuration's
proxy descriptor into the manifest's proxy field. -/
def getProxy (cfg : InstallConfig) : Option Proxy := cfg.proxy

/-- `types.ArchitectureAMD64` (constant of the `types` package, not under `src/`). -/
def architectureAMD64 : String := "amd64"

/-- `types.ArchitectureARM64` (constant of the `types` package, not under `src/`). -/
def architectureARM64 : String := "arm64"

/-- `types.ArchitecturePPC64LE` (constant of the `types` package, not under `src/`). -/
def architecturePPC64LE : String := "ppc64le"

/-- Modelled from the spec: `arch.RpmArch` from `coreos/stream-metadata-go`,
the Architecture Normalizer — a fixed table translating Go/Debian-convention
architecture names to RPM-convention names, with unrecognized inputs passed
through unchanged. -/
def rpmArch (goarch : String) : String :=
  if goarch = "amd64" then "x86_64"
  else if goarch = "arm64" then "aarch64"
  else if goarch = "ppc64le" then "ppc64le"
  else goarch

/-- Go's `strings.Trim s cutset`: removes all leading and trailing code
points of `s` that are contained in `cutset`. -/
def goTrim (s cutset : String) : String :=
  ⟨((s.data.dropWhile (fun c => cutset.data.contains c)).reverse.dropWhile
      (fun c => cutset.data.contains c)).reverse⟩

/-- The fields of `aiv1beta1.InfraEnv` that the source populates and reads
(identity metadata, cluster reference, SSH key, pull-secret reference,
NMState label selector, CPU architecture, proxy, NTP sources). -/
structure InfraEnvConfig where
  name : String
  namespaceName : String
  clusterRefName : String
  clusterRefNamespace : String
  sshAuthorizedKey : String
  pullSecretName : String
  nmStateConfigLabelSelector : List (String × String)
  cpuArchitecture : String
  proxy : Option Proxy
  additionalNTPSources : List String
deriving DecidableEq, Repr

/-- Modelled from the spec: the serialized form of a manifest. Strict
decoding rejects a document exactly when it carries fields outside the
manifest schema, so a document is the schema content plus the list of its
unknown extra field names (empty for anything produced by `yamlMarshal`). -/
structure YamlDoc where
  config : InfraEnvConfig
  extraFields : List String
deriving DecidableEq, Repr

/-- Modelled from the spec: `yaml.Marshal` — total on well-formed manifests,
produces a document with no unknown fields. -/
def yamlMarshal (c : InfraEnvConfig) : YamlDoc := ⟨c, []⟩

/-- Modelled from the spec: `yaml.UnmarshalStrict` — fails if and only if the
document carries a field not present in the manifest schema. -/
def yamlUnmarshalStrict (d : YamlDoc) : Except String InfraEnvConfig :=
  match d.extraFields with
  | [] => Except.ok d.config
  | fld :: _ => Except.error ("unknown field " ++ fld)

/-- `asset.File`: a filename paired with serialized content. -/
structure AssetFile where
  filename : String
  data : YamlDoc
deriving DecidableEq, Repr

/-- Modelled from the spec: the fixed manifest directory (`clusterManifestDir`
is defined elsewhere in the `manifests` package, not under `src/`). -/
def clusterManifestDir : String := "cluster-manifests"

/-- `infraEnvFilename = filepath.Join(clusterManifestDir, "infraenv.yaml")`. -/
def infraEnvFilename : String := clusterManifestDir ++ "/infraenv.yaml"

/-- The `InfraEnv` asset: a nullable file artifact and a nullable manifest. -/
structure InfraEnv where
  file : Option AssetFile
  config : Option InfraEnvConfig
deriving DecidableEq, Repr

/-- Result of running a Go method: either a returned value, or a panic
(here: a nil-pointer dereference, which aborts without a value). -/
inductive GoResult (α : Type) where
  | panics : GoResult α
  | returns (val : α) : GoResult α
deriving DecidableEq, Repr

/-- Outcome of `asset.FileFetcher.FetchByName`: a distinguishable
does-not-exist error (`os.IsNotExist` true), any other error, or the file. -/
inductive FetchResult where
  | notExist : FetchResult
  | fetchError (msg : String) : FetchResult
  | found (file : AssetFile) : FetchResult
deriving DecidableEq, Repr

/-- `InfraEnv.finish`: fails when no manifest is present, and when the
manifest's CPU architecture is populated with a value other than the three
supported RPM-convention names. -/
def InfraEnv.finish (i : InfraEnv) : Option String :=
  match i.config with
  | none => some "missing configuration or manifest file"
  | some c =>
    if c.cpuArchitecture = rpmArch architectureAMD64 ∨
        c.cpuArchitecture = rpmArch architectureARM64 ∨
        c.cpuArchitecture = rpmArch architecturePPC64LE ∨
        c.cpuArchitecture = "" then
      none
    else
      some ("Config.Spec.CpuArchitecture " ++ c.cpuArchitecture ++ " is not supported ")

/-- The manifest `InfraEnv.Generate` builds when the install configuration is
present and its control-plane section is non-nil: the struct literal of the
source followed by the three conditional field assignments. -/
def buildInfraEnv (cfg : InstallConfig) (cp : MachinePool)
    (agentConfig : AgentConfig) : InfraEnvConfig :=
  { name := getInfraEnvName cfg
    namespaceName := getObjectMetaNamespace cfg
    clusterRefName := getClusterDeploymentName cfg
    clusterRefNamespace := getObjectMetaNamespace cfg
    sshAuthorizedKey := goTrim cfg.sshKey "|\n\t"
    pullSecretName := getPullSecretName cfg
    nmStateConfigLabelSelector := getNMStateConfigLabels cfg
    cpuArchitecture := if cp.architecture ≠ "" then rpmArch cp.architecture else ""
    proxy := if cfg.proxy.isSome then getProxy cfg else none
    additionalNTPSources :=
      match agentConfig.config with
      | some ac => ac.additionalNTPSources
      | none => [] }

/-- The asset state after the successful branch of `Generate`: `i.Config` and
`i.File` are both overwritten (these are the asset's only fields, so the
result does not depend on the prior state). -/
def generatedState (cfg : InstallConfig) (cp : MachinePool)
    (agentConfig : AgentConfig) : InfraEnv :=
  { file := some ⟨infraEnvFilename, yamlMarshal (buildInfraEnv cfg cp agentConfig)⟩
    config := some (buildInfraEnv cfg cp agentConfig) }

/-- `InfraEnv.Generate`. When the install configuration is present the source
dereferences `installConfig.Config.ControlPlane` without a nil check, so a nil
control-plane section panics. `yaml.Marshal` is modelled total (the spec:
serialization cannot fail on well-formed manifests), so its error branch is
dead. Returns the updated asset together with the returned Go error. -/
def InfraEnv.generate (installConfig : OptionalInstallConfig)
    (agentConfig : AgentConfig) (i : InfraEnv) :
    GoResult (InfraEnv × Option String) :=
  match installConfig.config with
  | some cfg =>
    match cfg.controlPlane with
    | none => GoResult.panics
    | some cp =>
      GoResult.returns (generatedState cfg cp agentConfig,
        (generatedState cfg cp agentConfig).finish)
  | none => GoResult.returns (i, i.finish)

/-- `InfraEnv.Files`. -/
def InfraEnv.files (i : InfraEnv) : List AssetFile :=
  match i.file with
  | some f => [f]
  | none => []

/-- The post-decode re-normalization `Load` applies: if the decoded CPU
architecture is populated, it is passed through `arch.RpmArch` again. -/
def loadNormalize (c : InfraEnvConfig) : InfraEnvConfig :=
  if c.cpuArchitecture ≠ "" then { c with cpuArchitecture := rpmArch c.cpuArchitecture }
  else c

/-- `InfraEnv.Load`. Returns the updated asset together with the
`(found, error)` pair of the source. -/
def InfraEnv.load (f : String → FetchResult) (i : InfraEnv) :
    GoResult (InfraEnv × Bool × Option String) :=
  match f infraEnvFilename with
  | FetchResult.notExist => GoResult.returns (i, false, none)
  | FetchResult.fetchError msg =>
    GoResult.returns (i, false,
      some ("failed to load " ++ infraEnvFilename ++ " file: " ++ msg))
  | FetchResult.found file =>
    match yamlUnmarshalStrict file.data with
    | Except.error e =>
      GoResult.returns (i, false,
        some ("failed to unmarshal " ++ infraEnvFilename ++ ": " ++ e))
    | Except.ok config0 =>
      match InfraEnv.finish ⟨some file, some (loadNormalize config0)⟩ with
      | some e =>
        GoResult.returns (⟨some file, some (loadNormalize config0)⟩, false, some e)
      | none =>
        GoResult.returns (⟨some file, some (loadNormalize config0)⟩, true, none)

/-- The architecture values `finish` accepts: the three supported
RPM-convention names, or the empty string (architecture unset). -/
def supportedArch (s : String) : Prop :=
  s = "x86_64" ∨ s = "aarch64" ∨ s = "ppc64le" ∨ s = ""

instance (s : String) : Decidable (supportedArch s) := by
  unfold supportedArch; infer_instance

/-! ### Helper lemmas -/

theorem rpmArch_amd64 : rpmArch architectureAMD64 = "x86_64" := rfl

theorem rpmArch_arm64 : rpmArch architectureARM64 = "aarch64" := rfl

theorem rpmArch_ppc64le : rpmArch architecturePPC64LE = "ppc64le" := rfl

theorem finish_some_config (fl : Option AssetFile) (c : InfraEnvConfig) :
    InfraEnv.finish ⟨fl, some c⟩ =
      if supportedArch c.cpuArchitecture then none
      else some ("Config.Spec.CpuArchitecture " ++ c.cpuArchitecture ++ " is not supported ") := by
  unfold InfraEnv.finish supportedArch
  rw [rpmArch_amd64, rpmArch_arm64, rpmArch_ppc64le]

theorem finish_none_supported {i : InfraEnv} {c : InfraEnvConfig}
    (hfin : i.finish = none) (hc : i.config = some c) : supportedArch c.cpuArchitecture := by
  obtain ⟨fl, cf⟩ := i
  have hc' : cf = some c := hc
  subst hc'
  rw [finish_some_config] at hfin
  by_cases hs : supportedArch c.cpuArchitecture
  · exact hs
  · rw [if_neg hs] at hfin
    exact absurd hfin (by simp)

theorem rpmArch_of_supported {s : String} (h : supportedArch s) : rpmArch s = s := by
  rcases h with h | h | h | h <;> subst h <;> rfl

theorem loadNormalize_of_supported {c : InfraEnvConfig}
    (h : supportedArch c.cpuArchitecture) : loadNormalize c = c := by
  unfold loadNormalize
  split_ifs with hne
  · rw [rpmArch_of_supported h]
  · rfl

theorem generate_shape (deps : OptionalInstallConfig) (ag : AgentConfig) (i : InfraEnv) :
    InfraEnv.generate deps ag i = GoResult.panics ∨
    ∃ s : InfraEnv, InfraEnv.generate deps ag i = GoResult.returns (s, s.finish) := by
  obtain ⟨cfgo⟩ := deps
  cases cfgo with
  | none => exact Or.inr ⟨i, rfl⟩
  | some cfg =>
    cases hcp : cfg.controlPlane with
    | none =>
      left
      simp only [InfraEnv.generate, hcp]
    | some cp =>
      right
      refine ⟨generatedState cfg cp ag, ?_⟩
      simp only [InfraEnv.generate, hcp]

theorem load_true_finish {f : String → FetchResult} {i i' : InfraEnv}
    (h : InfraEnv.load f i = GoResult.returns (i', true, none)) : i'.finish = none := by
  cases hf : f infraEnvFilename with
  | notExist => simp only [InfraEnv.load, hf] at h; simp at h
  | fetchError msg => simp only [InfraEnv.load, hf] at h; simp at h
  | found file =>
    simp only [InfraEnv.load, hf] at h
    cases hd : yamlUnmarshalStrict file.data with
    | error e => simp only [hd] at h; simp at h
    | ok config0 =>
      simp only [hd] at h
      cases hfin : InfraEnv.finish ⟨some file, some (loadNormalize config0)⟩ with
      | some e => simp only [hfin] at h; simp at h
      | none =>
        simp only [hfin] at h
        simp at h
        rw [← h]
        exact hfin

theorem load_found_unsupported (f : String → FetchResult) (i : InfraEnv) (file : AssetFile)
    (hf : f infraEnvFilename = FetchResult.found file)
    (hext : file.data.extraFields = [])
    (hup : ¬ supportedArch (loadNormalize file.data.config).cpuArchitecture) :
    InfraEnv.load f i = GoResult.returns
      (⟨some file, some (loadNormalize file.data.config)⟩, false,
        some ("Config.Spec.CpuArchitecture " ++
          (loadNormalize file.data.config).cpuArchitecture ++ " is not supported ")) := by
  have hdec : yamlUnmarshalStrict file.data = Except.ok file.data.config := by
    unfold yamlUnmarshalStrict
    rw [hext]
  have hfin : InfraEnv.finish ⟨some file, some (loadNormalize file.data.config)⟩ =
      some ("Config.Spec.CpuArchitecture " ++
        (loadNormalize file.data.config).cpuArchitecture ++ " is not supported ") := by
    rw [finish_some_config, if_neg hup]
  simp only [InfraEnv.load, hf, hdec, hfin]

/-! ### Concrete inputs used to instantiate the claims -/

/-- The fresh (Uninitialized) asset: no file artifact, no manifest. -/
def emptyInfraEnv : InfraEnv := ⟨none, none⟩

/-- The install configuration of the spec's concrete scenario: SSH key with
surrounding pipe, whitespace and newline characters, control-plane
architecture `arm64`. -/
def exInstallConfig : InstallConfig :=
  { sshKey := "  |ssh-rsa AAA...  \n"
    controlPlane := some ⟨"arm64"⟩
    proxy := none
    infraEnvName := "myinfraenv"
    namespaceName := "cluster0"
    clusterDeploymentName := "mycluster"
    pullSecretName := "pull-secret"
    nmStateLabels := [] }

/-- The manifest `Generate` actually builds from `exInstallConfig`: only
pipe, newline and tab are trimmed from the ends of the SSH key, so the
surrounding spaces (and the pipe they shield) survive. -/
def exExpected : InfraEnvConfig :=
  { name := "myinfraenv"
    namespaceName := "cluster0"
    clusterRefName := "mycluster"
    clusterRefNamespace := "cluster0"
    sshAuthorizedKey := "  |ssh-rsa AAA...  "
    pullSecretName := "pull-secret"
    nmStateConfigLabelSelector := []
    cpuArchitecture := "aarch64"
    proxy := none
    additionalNTPSources := [] }

/-- Install configuration whose control-plane architecture is not in the
translation table and not supported by the validator. -/
def unsupInstallConfig : InstallConfig :=
  { exInstallConfig with controlPlane := some ⟨"unsupported-value"⟩ }

/-- The manifest `Generate` builds from `unsupInstallConfig` (the unsupported
value passes through `rpmArch` unchanged). -/
def unsupManifest : InfraEnvConfig :=
  { exExpected with cpuArchitecture := "unsupported-value" }

/-- Install configuration whose control-plane section is nil. -/
def nilControlPlaneConfig : InstallConfig :=
  { exInstallConfig with controlPlane := none }

/-! ### Claims -/

/-- C1 counterexample: at the concrete dependency state whose install
configuration is nil, `Generate` on a fresh asset returns the non-nil error
"missing configuration or manifest file", refuting the claim that it returns
no error. -/
theorem c1_counterexample :
    InfraEnv.generate ⟨none⟩ ⟨none⟩ emptyInfraEnv =
      GoResult.returns (emptyInfraEnv, some "missing configuration or manifest file") ∧
    some "missing configuration or manifest file" ≠ (none : Option String) :=
  ⟨rfl, by decide⟩

/-- C1 (amended): for every dependency state in which the install
configuration is nil, `Generate` on a fresh asset returns the error
"missing configuration or manifest file" (a non-nil error, because `finish`
rejects the missing manifest) and the asset produces zero file artifacts. -/
theorem generate_nil_installconfig_errors (agentConfig : AgentConfig) (i : InfraEnv)
    (hc : i.config = none) (hf : i.file = none) :
    InfraEnv.generate ⟨none⟩ agentConfig i =
      GoResult.returns (i, some "missing configuration or manifest file") ∧
    i.files = [] := by
  constructor
  · show GoResult.returns (i, i.finish) = _
    unfold InfraEnv.finish
    rw [hc]
  · unfold InfraEnv.files
    rw [hf]

/-- C1 witness: the amended claim evaluated on the fresh asset with both
dependencies absent. -/
theorem generate_nil_installconfig_errors_witness :
    InfraEnv.generate ⟨none⟩ ⟨none⟩ emptyInfraEnv =
      GoResult.returns (emptyInfraEnv, some "missing configuration or manifest file") ∧
    emptyInfraEnv.files = [] :=
  generate_nil_installconfig_errors ⟨none⟩ emptyInfraEnv rfl rfl

/-- C2 counterexample: on the spec's concrete scenario `Generate` succeeds,
but the manifest's SSH key keeps the surrounding spaces and the pipe they
shield (`strings.Trim` only removes pipe, newline and tab), so it differs
from the claimed fully-trimmed value. -/
theorem c2_counterexample :
    InfraEnv.generate ⟨some exInstallConfig⟩ ⟨none⟩ emptyInfraEnv =
      GoResult.returns (⟨some ⟨infraEnvFilename, yamlMarshal exExpected⟩, some exExpected⟩, none) ∧
    exExpected.sshAuthorizedKey ≠ "ssh-rsa AAA..." :=
  ⟨rfl, by decide⟩

/-- C2 (amended): for the install configuration with SSH key
"  |ssh-rsa AAA...  \n" (with the trailing escape denoting a newline) and
control-plane architecture "arm64", `Generate` produces a manifest whose
SSH key is "  |ssh-rsa AAA...  " (only pipe, newline and tab characters are
trimmed from the ends) and whose CPU architecture is "aarch64", and strict
decoding of the serialized form reproduces both field values exactly. -/
theorem generate_concrete_scenario :
    InfraEnv.generate ⟨some exInstallConfig⟩ ⟨none⟩ emptyInfraEnv =
      GoResult.returns (⟨some ⟨infraEnvFilename, yamlMarshal exExpected⟩, some exExpected⟩, none) ∧
    exExpected.sshAuthorizedKey = "  |ssh-rsa AAA...  " ∧
    exExpected.cpuArchitecture = "aarch64" ∧
    yamlUnmarshalStrict (yamlMarshal exExpected) = Except.ok exExpected :=
  ⟨rfl, rfl, rfl, rfl⟩

/-- C4: whenever the fetcher reports a does-not-exist error for the asset's
fixed file path, `Load` returns `(found := false, error := nil)` and leaves
the asset exactly as it was (File and Config untouched). -/
theorem load_not_found (f : String → FetchResult) (i : InfraEnv)
    (h : f infraEnvFilename = FetchResult.notExist) :
    InfraEnv.load f i = GoResult.returns (i, false, none) := by
  simp only [InfraEnv.load, h]

/-- C4 witness: the claim evaluated on a fetcher that always reports
does-not-exist, against the fresh asset. -/
theorem load_not_found_witness :
    InfraEnv.load (fun _ => FetchResult.notExist) emptyInfraEnv =
      GoResult.returns (emptyInfraEnv, false, none) :=
  load_not_found (fun _ => FetchResult.notExist) emptyInfraEnv rfl

/-- C5: whenever the fetched document carries a field outside the manifest
schema, strict decoding fails, `Load` returns `(false, non-nil decode error)`
and leaves the asset exactly as it was (File and Config untouched). -/
theorem load_unknown_field_errors (f : String → FetchResult) (i : InfraEnv)
    (file : AssetFile) (fld : String) (rest : List String)
    (h : f infraEnvFilename = FetchResult.found file)
    (hext : file.data.extraFields = fld :: rest) :
    InfraEnv.load f i = GoResult.returns (i, false,
      some ("failed to unmarshal " ++ infraEnvFilename ++ ": " ++ ("unknown field " ++ fld))) := by
  have hdec : yamlUnmarshalStrict file.data = Except.error ("unknown field " ++ fld) := by
    unfold yamlUnmarshalStrict
    rw [hext]
  simp only [InfraEnv.load, h, hdec]

/-- C5 witness: the claim evaluated on a document carrying the unknown extra
field "bogus", against the fresh asset. -/
theorem load_unknown_field_errors_witness :
    InfraEnv.load (fun _ => FetchResult.found ⟨infraEnvFilename, ⟨exExpected, ["bogus"]⟩⟩)
        emptyInfraEnv =
      GoResult.returns (emptyInfraEnv, false,
        some ("failed to unmarshal " ++ infraEnvFilename ++ ": " ++ ("unknown field " ++ "bogus"))) :=
  load_unknown_field_errors (fun _ => FetchResult.found ⟨infraEnvFilename, ⟨exExpected, ["bogus"]⟩⟩)
    emptyInfraEnv ⟨infraEnvFilename, ⟨exExpected, ["bogus"]⟩⟩ "bogus" [] rfl rfl

/-- C7: the architecture normalizer `arch.RpmArch` is idempotent — applying
it twice gives the same result as applying it once, for every input string. -/
theorem rpmArch_idempotent (x : String) : rpmArch (rpmArch x) = rpmArch x := by
  by_cases h1 : x = "amd64"
  · subst h1; rfl
  · by_cases h2 : x = "arm64"
    · subst h2; rfl
    · by_cases h3 : x = "ppc64le"
      · subst h3; rfl
      · have hx : rpmArch x = x := by
          unfold rpmArch
          rw [if_neg h1, if_neg h2, if_neg h3]
        rw [hx, hx]

theorem generate_success_supported {deps : OptionalInstallConfig} {ag : AgentConfig}
    {i i' : InfraEnv} (hgen : InfraEnv.generate deps ag i = GoResult.returns (i', none))
    {c : InfraEnvConfig} (hc : i'.config = some c) : supportedArch c.cpuArchitecture := by
  rcases generate_shape deps ag i with hp | ⟨s, hs⟩
  · rw [hp] at hgen
    exact absurd hgen (by simp)
  · rw [hs] at hgen
    simp at hgen
    obtain ⟨h1, h2⟩ := hgen
    subst h1
    exact finish_none_supported h2 hc

/-- C3 counterexample: with control-plane architecture "unsupported-value"
(for `Generate`) and an on-disk manifest carrying that architecture (for
`Load`), both calls return a validation error, but the asset is NOT left
without a file artifact: `Files()` returns a one-element list, because the
source assigns `i.File` before running the validator. -/
theorem c3_counterexample :
    (InfraEnv.generate ⟨some unsupInstallConfig⟩ ⟨none⟩ emptyInfraEnv =
       GoResult.returns (⟨some ⟨infraEnvFilename, yamlMarshal unsupManifest⟩, some unsupManifest⟩,
         some "Config.Spec.CpuArchitecture unsupported-value is not supported ") ∧
     InfraEnv.files ⟨some ⟨infraEnvFilename, yamlMarshal unsupManifest⟩, some unsupManifest⟩ ≠ []) ∧
    (InfraEnv.load (fun _ => FetchResult.found ⟨infraEnvFilename, ⟨unsupManifest, []⟩⟩)
        emptyInfraEnv =
       GoResult.returns (⟨some ⟨infraEnvFilename, ⟨unsupManifest, []⟩⟩, some unsupManifest⟩, false,
         some "Config.Spec.CpuArchitecture unsupported-value is not supported ") ∧
     InfraEnv.files ⟨some ⟨infraEnvFilename, ⟨unsupManifest, []⟩⟩, some unsupManifest⟩ ≠ []) :=
  ⟨⟨rfl, by decide⟩, ⟨rfl, by decide⟩⟩

/-- C3 (amended): for every manifest whose CPU architecture normalizes to a
value outside the supported set, both `Generate` and `Load` return a non-nil
validation error, but the asset keeps the file artifact written before
validation: `Files()` returns a one-element list, not an empty one. -/
theorem generate_load_unsupported_arch :
    (∀ (cfg : InstallConfig) (cp : MachinePool) (ag : AgentConfig) (i : InfraEnv),
      cfg.controlPlane = some cp → ¬ supportedArch (rpmArch cp.architecture) →
      InfraEnv.generate ⟨some cfg⟩ ag i =
        GoResult.returns (generatedState cfg cp ag,
          some ("Config.Spec.CpuArchitecture " ++ rpmArch cp.architecture ++
            " is not supported ")) ∧
      (generatedState cfg cp ag).files.length = 1) ∧
    (∀ (f : String → FetchResult) (i : InfraEnv) (file : AssetFile),
      f infraEnvFilename = FetchResult.found file → file.data.extraFields = [] →
      ¬ supportedArch (loadNormalize file.data.config).cpuArchitecture →
      InfraEnv.load f i = GoResult.returns
        (⟨some file, some (loadNormalize file.data.config)⟩, false,
          some ("Config.Spec.CpuArchitecture " ++
            (loadNormalize file.data.config).cpuArchitecture ++ " is not supported ")) ∧
      (InfraEnv.files ⟨some file, some (loadNormalize file.data.config)⟩).length = 1) := by
  constructor
  · intro cfg cp ag i hcp hup
    have hne : cp.architecture ≠ "" := by
      intro h
      rw [h] at hup
      exact hup (by decide)
    have harch : (buildInfraEnv cfg cp ag).cpuArchitecture = rpmArch cp.architecture := by
      show (if cp.architecture ≠ "" then rpmArch cp.architecture else "") = rpmArch cp.architecture
      rw [if_pos hne]
    have hfin : (generatedState cfg cp ag).finish =
        some ("Config.Spec.CpuArchitecture " ++ rpmArch cp.architecture ++
          " is not supported ") := by
      unfold generatedState
      rw [finish_some_config, harch, if_neg hup]
    constructor
    · simp only [InfraEnv.generate, hcp, hfin]
    · rfl
  · intro f i file hf hext hup
    exact ⟨load_found_unsupported f i file hf hext hup, rfl⟩

/-- C3 witness: the amended claim evaluated at the "unsupported-value"
scenario on both the generation and the load path. -/
theorem generate_load_unsupported_arch_witness :
    (InfraEnv.generate ⟨some unsupInstallConfig⟩ ⟨none⟩ emptyInfraEnv =
       GoResult.returns (generatedState unsupInstallConfig ⟨"unsupported-value"⟩ ⟨none⟩,
         some ("Config.Spec.CpuArchitecture " ++ rpmArch "unsupported-value" ++
           " is not supported ")) ∧
     (generatedState unsupInstallConfig ⟨"unsupported-value"⟩ ⟨none⟩).files.length = 1) ∧
    (InfraEnv.load (fun _ => FetchResult.found ⟨infraEnvFilename, ⟨unsupManifest, []⟩⟩)
        emptyInfraEnv =
       GoResult.returns
         (⟨some ⟨infraEnvFilename, ⟨unsupManifest, []⟩⟩, some (loadNormalize unsupManifest)⟩, false,
           some ("Config.Spec.CpuArchitecture " ++
             (loadNormalize unsupManifest).cpuArchitecture ++ " is not supported ")) ∧
     (InfraEnv.files ⟨some ⟨infraEnvFilename, ⟨unsupManifest, []⟩⟩,
        some (loadNormalize unsupManifest)⟩).length = 1) :=
  ⟨generate_load_unsupported_arch.1 unsupInstallConfig ⟨"unsupported-value"⟩ ⟨none⟩
      emptyInfraEnv rfl (by decide),
   generate_load_unsupported_arch.2
      (fun _ => FetchResult.found ⟨infraEnvFilename, ⟨unsupManifest, []⟩⟩) emptyInfraEnv
      ⟨infraEnvFilename, ⟨unsupManifest, []⟩⟩ rfl rfl (by decide)⟩

/-- C6: every run of `Generate` or `Load` that returns no error while a
manifest is present leaves a manifest whose CPU architecture is empty or one
of the three supported RPM-convention values — the shared validator `finish`
rejects everything else on both paths. -/
theorem success_arch_supported :
    (∀ (deps : OptionalInstallConfig) (ag : AgentConfig) (i i' : InfraEnv),
      InfraEnv.generate deps ag i = GoResult.returns (i', none) →
      ∀ c, i'.config = some c → supportedArch c.cpuArchitecture) ∧
    (∀ (f : String → FetchResult) (i i' : InfraEnv),
      InfraEnv.load f i = GoResult.returns (i', true, none) →
      ∀ c, i'.config = some c → supportedArch c.cpuArchitecture) := by
  constructor
  · intro deps ag i i' hgen c hc
    exact generate_success_supported hgen hc
  · intro f i i' hload c hc
    exact finish_none_supported (load_true_finish hload) hc

/-- C6 witness: the invariant evaluated on the successful concrete generate
and load runs of the "arm64" scenario. -/
theorem success_arch_supported_witness :
    supportedArch exExpected.cpuArchitecture ∧
    supportedArch (loadNormalize exExpected).cpuArchitecture :=
  ⟨success_arch_supported.1 ⟨some exInstallConfig⟩ ⟨none⟩ emptyInfraEnv
      ⟨some ⟨infraEnvFilename, yamlMarshal exExpected⟩, some exExpected⟩ rfl exExpected rfl,
   success_arch_supported.2 (fun _ => FetchResult.found ⟨infraEnvFilename, ⟨exExpected, []⟩⟩)
      emptyInfraEnv ⟨some ⟨infraEnvFilename, ⟨exExpected, []⟩⟩, some (loadNormalize exExpected)⟩
      rfl (loadNormalize exExpected) rfl⟩

/-- C8: for every manifest produced by a successful `Generate`, serializing
and then strictly deserializing it (as `Load` does) reproduces the manifest
in all fields, and the post-load re-normalization of the CPU architecture
leaves it unchanged (it was already normalized, `finish` having accepted it). -/
theorem generate_roundtrip :
    ∀ (deps : OptionalInstallConfig) (ag : AgentConfig) (i i' : InfraEnv),
      InfraEnv.generate deps ag i = GoResult.returns (i', none) →
      ∀ c, i'.config = some c →
        yamlUnmarshalStrict (yamlMarshal c) = Except.ok c ∧ loadNormalize c = c := by
  intro deps ag i i' hgen c hc
  exact ⟨rfl, loadNormalize_of_supported (generate_success_supported hgen hc)⟩

/-- C8 witness: the round-trip property evaluated on the manifest generated
from the concrete "arm64" scenario. -/
theorem generate_roundtrip_witness :
    yamlUnmarshalStrict (yamlMarshal exExpected) = Except.ok exExpected ∧
    loadNormalize exExpected = exExpected :=
  generate_roundtrip ⟨some exInstallConfig⟩ ⟨none⟩ emptyInfraEnv
    ⟨some ⟨infraEnvFilename, yamlMarshal exExpected⟩, some exExpected⟩ rfl exExpected rfl

/-- C9 counterexample: with an install configuration whose control-plane
section is nil, `Generate` dereferences the nil pointer
(`installConfig.Config.ControlPlane.Architecture`) and panics instead of
returning, refuting the claim that every failure is surfaced as a returned
error. -/
theorem c9_counterexample :
    InfraEnv.generate ⟨some nilControlPlaneConfig⟩ ⟨none⟩ emptyInfraEnv = GoResult.panics :=
  rfl

/-- C9 (amended): `Generate` terminates by returning a value for every
dependency state whose install configuration, when present, has a non-nil
control-plane section (with a nil control-plane section it panics on the
unchecked pointer dereference); `Load` always terminates by returning a
value, for every fetcher outcome. -/
theorem generate_load_no_panic :
    (∀ (deps : OptionalInstallConfig) (ag : AgentConfig) (i : InfraEnv),
      (∀ cfg, deps.config = some cfg → cfg.controlPlane ≠ none) →
      InfraEnv.generate deps ag i ≠ GoResult.panics) ∧
    (∀ (f : String → FetchResult) (i : InfraEnv),
      InfraEnv.load f i ≠ GoResult.panics) := by
  constructor
  · intro deps ag i hcp
    rcases generate_shape deps ag i with hp | ⟨s, hs⟩
    · exfalso
      obtain ⟨cfgo⟩ := deps
      cases cfgo with
      | none =>
        simp only [InfraEnv.generate] at hp
        exact GoResult.noConfusion hp
      | some cfg =>
        cases hc : cfg.controlPlane with
        | none => exact hcp cfg rfl hc
        | some cp =>
          simp only [InfraEnv.generate, hc] at hp
          exact GoResult.noConfusion hp
    · rw [hs]
      exact fun h => GoResult.noConfusion h
  · intro f i h
    cases hf : f infraEnvFilename with
    | notExist =>
      simp only [InfraEnv.load, hf] at h
      exact GoResult.noConfusion h
    | fetchError msg =>
      simp only [InfraEnv.load, hf] at h
      exact GoResult.noConfusion h
    | found file =>
      cases hd : yamlUnmarshalStrict file.data with
      | error e =>
        simp only [InfraEnv.load, hf, hd] at h
        exact GoResult.noConfusion h
      | ok config0 =>
        cases hfin : InfraEnv.finish ⟨some file, some (loadNormalize config0)⟩ with
        | some e =>
          simp only [InfraEnv.load, hf, hd, hfin] at h
          exact GoResult.noConfusion h
        | none =>
          simp only [InfraEnv.load, hf, hd, hfin] at h
          exact GoResult.noConfusion h

/-- C9 witness: the amended claim evaluated on the concrete "arm64" scenario
for `Generate` and a not-found fetcher for `Load`. -/
theorem generate_load_no_panic_witness :
    InfraEnv.generate ⟨some exInstallConfig⟩ ⟨none⟩ emptyInfraEnv ≠ GoResult.panics ∧
    InfraEnv.load (fun _ => FetchResult.notExist) emptyInfraEnv ≠ GoResult.panics :=
  ⟨generate_load_no_panic.1 ⟨some exInstallConfig⟩ ⟨none⟩ emptyInfraEnv
      (by
        intro cfg h
        have h' : some exInstallConfig = some cfg := h
        cases h'
        decide),
   generate_load_no_panic.2 (fun _ => FetchResult.notExist) emptyInfraEnv⟩

/-- C10: when `Load`'s fetch and strict decode succeed but the post-load
validator rejects the decoded manifest (unsupported architecture), `Load`
returns `(false, non-nil error)` while the asset's File and Config fields are
left set to the values read from disk — no rollback to the uninitialized
state. -/
theorem load_validation_error_keeps_state (f : String → FetchResult) (i : InfraEnv)
    (file : AssetFile)
    (hf : f infraEnvFilename = FetchResult.found file)
    (hext : file.data.extraFields = [])
    (hup : ¬ supportedArch (loadNormalize file.data.config).cpuArchitecture) :
    InfraEnv.load f i = GoResult.returns
      (⟨some file, some (loadNormalize file.data.config)⟩, false,
        some ("Config.Spec.CpuArchitecture " ++
          (loadNormalize file.data.config).cpuArchitecture ++ " is not supported ")) :=
  load_found_unsupported f i file hf hext hup

/-- C10 witness: the frame property evaluated on an on-disk manifest with the
unsupported architecture value, against the fresh asset. -/
theorem load_validation_error_keeps_state_witness :
    InfraEnv.load (fun _ => FetchResult.found ⟨infraEnvFilename, ⟨unsupManifest, []⟩⟩)
        emptyInfraEnv =
      GoResult.returns
        (⟨some ⟨infraEnvFilename, ⟨unsupManifest, []⟩⟩, some (loadNormalize unsupManifest)⟩, false,
          some ("Config.Spec.CpuArchitecture " ++
            (loadNormalize unsupManifest).cpuArchitecture ++ " is not supported ")) :=
  load_validation_error_keeps_state
    (fun _ => FetchResult.found ⟨infraEnvFilename, ⟨unsupManifest, []⟩⟩) emptyInfraEnv
    ⟨infraEnvFilename, ⟨unsupManifest, []⟩⟩ rfl rfl (by decide)

end InfraEnvAsset
